import Mathlib

/-!
Verification of the spice channel core and WebSocket framer.

The development shallowly embeds the code of src/server/websocket.c and
src/server/red-channel.c.  Bytes are natural numbers below 256; machine
integer truncation is written out with explicit masks where the C code
relies on a fixed width.  The raw stream callbacks underneath the framer
are modelled by deterministic oracles: the read side is a flat byte list
(an exhausted list behaves like a non-blocking socket, i.e. the callback
reports the EAGAIN error), the write side is a list of per-call outcomes.
-/

namespace Spice

/-! ### RFC 6455 constants (websocket.c) -/

def FIN_FLAG : Nat := 0x80
def RSV_MASK : Nat := 0x70
def TYPE_MASK : Nat := 0x0F
def CONTROL_FRAME_MASK : Nat := 0x8
def CONTINUATION_FRAME : Nat := 0x0
def BINARY_FRAME : Nat := 0x2
def CLOSE_FRAME : Nat := 0x8
def LENGTH_MASK : Nat := 0x7F
def LENGTH_16BIT : Nat := 0x7E
def LENGTH_64BIT : Nat := 0x7F
def MASK_FLAG : Nat := 0x80

/-- errno code EIO. -/
def Eio : Nat := 5
/-- errno code EAGAIN. -/
def Eagain : Nat := 11
/-- errno code EPIPE. -/
def Epipe : Nat := 32

/-! ### Length encoding and decoding -/

/-- One term `(*buf++) << i` of the 64-bit length accumulation loop in
`extract_length` (websocket.c).  In the C source the byte has type
`uint8_t` and is promoted to 32-bit `int` before the shift; for
`i ≥ 32` the shift count exceeds the width of `int` (the behaviour the
C standard leaves undefined), which we concretize as the x86 behaviour
of reducing the shift count modulo the operand width; a negative
32-bit intermediate is sign extended by the conversion to the
`uint64_t` accumulator. -/
def extract_length_term (b i : Nat) : Nat :=
  let v := (b <<< (i % 32)) % (2 ^ 32)
  if v < 2 ^ 31 then v else v + (2 ^ 64 - 2 ^ 32)

/-- Embedding of `extract_length` (websocket.c).  The argument is the byte
sequence starting at the WebSocket length byte; the result is the decoded
length paired with the number of bytes consumed (reported through `*used`
in the C code). -/
def extract_length (buf : List Nat) : Nat × Nat :=
  let b0 := (buf.headD 0) &&& LENGTH_MASK
  if b0 = LENGTH_64BIT then
    (extract_length_term (buf.getD 1 0) 56 |||
     extract_length_term (buf.getD 2 0) 48 |||
     extract_length_term (buf.getD 3 0) 40 |||
     extract_length_term (buf.getD 4 0) 32 |||
     extract_length_term (buf.getD 5 0) 24 |||
     extract_length_term (buf.getD 6 0) 16 |||
     extract_length_term (buf.getD 7 0) 8 |||
     extract_length_term (buf.getD 8 0) 0, 9)
  else if b0 = LENGTH_16BIT then
    ((buf.getD 1 0) <<< 8 ||| buf.getD 2 0, 3)
  else
    (b0, 1)

/-- Embedding of `fill_header` (websocket.c): the outbound frame header for a
binary data frame of payload length `len0`.  The C parameter is `uint64_t`,
hence the truncation; the returned list is the filled prefix of the header
buffer, so its length is the `used` count the C function returns. -/
def fill_header (len0 : Nat) : List Nat :=
  let len := len0 % 2 ^ 64
  if len > 65535 then
    (FIN_FLAG ||| BINARY_FRAME) :: LENGTH_64BIT ::
      ((List.range 8).map fun k => (len >>> (8 * (7 - k))) % 256)
  else if len ≥ LENGTH_16BIT then
    [FIN_FLAG ||| BINARY_FRAME, LENGTH_16BIT, len >>> 8, len &&& 0xFF]
  else
    [FIN_FLAG ||| BINARY_FRAME, len]

/-- Parsing back the length field of a header produced by `fill_header`:
the inbound parser reads the length starting at byte 1 of the header. -/
def ws_header_roundtrip (L : Nat) : Nat :=
  (extract_length ((fill_header L).drop 1)).1

/-! ### Inbound frame state (websocket_frame_t) -/

/-- Embedding of `websocket_frame_t` (websocket.c).  The `header` list is the
filled prefix of the 14-byte header buffer, so `header.length` plays the role
of `header_pos`.  The all-zero default value is the state `memset` leaves
behind in `websocket_clear_frame`. -/
structure websocket_frame_t where
  type : Nat := 0
  header : List Nat := []
  frame_ready : Bool := false
  masked : Bool := false
  mask : List Nat := []
  relayed : Nat := 0
  expected_len : Nat := 0
deriving DecidableEq

/-- Embedding of `frame_bytes_needed` (websocket.c). -/
def frame_bytes_needed (f : websocket_frame_t) : Nat :=
  if f.header.length < 2 then 2 - f.header.length
  else
    let b1 := f.header.getD 1 0
    let len7 := b1 &&& LENGTH_MASK
    (2 + (if len7 = LENGTH_64BIT then 8 else if len7 = LENGTH_16BIT then 2 else 0)
       + (if b1 &&& MASK_FLAG ≠ 0 then 4 else 0)) - f.header.length

/-- Embedding of `websocket_get_frame_header` (websocket.c).  `none` is the
C function's failure return; `some` carries the possibly updated frame (the
input frame unchanged when not enough header bytes are present yet). -/
def websocket_get_frame_header (f : websocket_frame_t) : Option websocket_frame_t :=
  if frame_bytes_needed f > 0 then some f
  else
    let b0 := f.header.getD 0 0
    let b1 := f.header.getD 1 0
    let fin := b0 &&& FIN_FLAG
    let ty := b0 &&& TYPE_MASK
    if b0 &&& RSV_MASK ≠ 0 then none
    else if fin = 0 ∧ ty &&& CONTROL_FRAME_MASK ≠ 0 then none
    else if 3 ≤ ty &&& 0xF7 then none
    else
      let masked := b1 &&& MASK_FLAG ≠ 0
      let ty2 := if fin = 0 ∧ ty = CONTINUATION_FRAME then BINARY_FRAME else ty
      let el := extract_length (f.header.drop 1)
      let used := 1 + el.2
      let mask := if masked then (f.header.drop used).take 4 else f.mask
      if ty2 &&& CONTROL_FRAME_MASK ≠ 0 ∧ el.1 ≥ LENGTH_16BIT then none
      else some { f with type := ty2, masked := masked, mask := mask,
                         expected_len := el.1, relayed := 0, frame_ready := true }

/-- The XOR loop of `relay_data` (websocket.c): unmask the bytes of `l`
against `mask`, starting at mask offset `rel % 4` and stepping the offset
with each byte. -/
def mask_bytes (mask : List Nat) : Nat → List Nat → List Nat
  | _, [] => []
  | rel, b :: rest => (b ^^^ mask.getD (rel % 4) 0) :: mask_bytes mask (rel + 1) rest

/-- Embedding of `relay_data` (websocket.c): from the raw bytes `buf` just
read, deliver at most `expected_len - relayed` bytes, XOR-unmasking them and
advancing `relayed` when the frame is masked.  Note the source increments
`frame->relayed` only inside the masked branch. -/
def relay_data (buf : List Nat) (f : websocket_frame_t) : List Nat × websocket_frame_t :=
  let n := min buf.length (f.expected_len - f.relayed)
  if f.masked then
    (mask_bytes f.mask f.relayed (buf.take n), { f with relayed := f.relayed + n })
  else
    (buf.take n, f)

/-! ### Connection state (RedsWebSocket) and the raw-stream oracles -/

/-- Embedding of `struct RedsWebSocket` (websocket.c).  `write_header` is the
filled prefix of the outbound header buffer.  The all-zero default is the
state `g_new0` produces in `websocket_new`. -/
structure RedsWebSocket where
  closed : Bool := false
  close_pending : Bool := false
  read_frame : websocket_frame_t := {}
  write_remainder : Nat := 0
  write_header : List Nat := []
  write_header_pos : Nat := 0
  write_header_len : Nat := 0
deriving DecidableEq

/-- The state `websocket_new` allocates with `g_new0` after a successful
handshake. -/
def websocket_new_state : RedsWebSocket := {}

/-- Raw read callback oracle: the pending socket bytes are a flat list.  A
request for `n > 0` bytes returns up to `n` of them; an exhausted list
behaves like a non-blocking socket, returning -1 with errno EAGAIN.
Result: (return code, bytes delivered, remaining stream). -/
def raw_read (input : List Nat) (n : Nat) : Int × List Nat × List Nat :=
  if n = 0 then (0, [], input)
  else if input = [] then (-1, [], input)
  else ((min n input.length : Nat), input.take n, input.drop n)

/-- Raw write callback oracle: each list entry is the outcome of one
callback invocation (negative = error, otherwise capped by the requested
count); an exhausted plan accepts requests in full. -/
def raw_write (plan : List Int) (req : Nat) : Int × List Int :=
  match plan with
  | [] => ((req : Int), [])
  | p :: rest => (if p < 0 then p else min p (req : Int), rest)

/-- Result of a write-side entry point: C return value, the errno the C code
itself assigns (`none` when the errno comes from the raw callback or no error
occurred), the new connection state, and the remaining write plan. -/
structure WriteResult where
  ret : Int
  errnoOut : Option Nat
  ws : RedsWebSocket
  plan : List Int
deriving DecidableEq

/-- Embedding of `websocket_ack_close` (websocket.c). -/
def websocket_ack_close (ws : RedsWebSocket) (plan : List Int) : WriteResult :=
  let r := raw_write plan 2
  if r.1 = 2 then
    ⟨r.1, none, { ws with close_pending := false, closed := true }, r.2⟩
  else ⟨r.1, none, ws, r.2⟩

/-- Embedding of `send_data_header_left` (websocket.c): flush the unsent part
of the pending data-frame header; once fully flushed, extract the frame length
into `write_remainder`. -/
def send_data_header_left (ws : RedsWebSocket) (plan : List Int) : WriteResult :=
  let r := raw_write plan (ws.write_header_len - ws.write_header_pos)
  if r.1 ≤ 0 then ⟨r.1, none, ws, r.2⟩
  else
    let pos := ws.write_header_pos + r.1.toNat
    if ws.write_header_len ≤ pos then
      ⟨(ws.write_header_len : Int), none,
        { ws with write_header_pos := pos,
                  write_remainder := (extract_length (ws.write_header.drop 1)).1 }, r.2⟩
    else
      ⟨-1, some Eagain, { ws with write_header_pos := pos }, r.2⟩

/-- Embedding of `send_data_header` (websocket.c).  Its two `spice_assert`
preconditions (`write_header_pos ≥ write_header_len`, `write_remainder == 0`)
hold at every call site and are not modelled. -/
def send_data_header (ws : RedsWebSocket) (len : Nat) (plan : List Int) : WriteResult :=
  let hdr := fill_header len
  send_data_header_left
    { ws with write_header := hdr, write_header_pos := 0, write_header_len := hdr.length }
    plan

/-- Embedding of `send_pending_data` (websocket.c). -/
def send_pending_data (ws : RedsWebSocket) (plan : List Int) : WriteResult :=
  if ws.write_remainder ≠ 0 then ⟨1, none, ws, plan⟩
  else if ws.write_header_pos < ws.write_header_len then
    let r := send_data_header_left ws plan
    if r.ret ≤ 0 then r else ⟨1, none, r.ws, r.plan⟩
  else if ws.close_pending then
    let r := websocket_ack_close ws plan
    if r.ret ≤ 0 then r else ⟨1, none, r.ws, r.plan⟩
  else ⟨1, none, ws, plan⟩

/-- Embedding of `websocket_write` (websocket.c).  Only the payload length
matters for the connection state, so the caller's buffer is represented by
its length. -/
def websocket_write (ws0 : RedsWebSocket) (len : Nat) (plan0 : List Int) : WriteResult :=
  if ws0.closed then ⟨-1, some Epipe, ws0, plan0⟩
  else
    let r := send_pending_data ws0 plan0
    if r.ret ≤ 0 then r
    else
      let ws := r.ws
      if ws.write_remainder = 0 then
        let r2 := send_data_header ws len r.plan
        if r2.ret ≤ 0 then r2
        else
          let ws2 := r2.ws
          let r3 := raw_write r2.plan ws2.write_remainder
          if 0 < r3.1 then
            ⟨r3.1, none, { ws2 with write_remainder := ws2.write_remainder - r3.1.toNat }, r3.2⟩
          else ⟨r3.1, none, ws2, r3.2⟩
      else
        let r3 := raw_write r.plan (min ws.write_remainder len)
        if 0 < r3.1 then
          ⟨r3.1, none, { ws with write_remainder := ws.write_remainder - r3.1.toNat }, r3.2⟩
        else ⟨r3.1, none, ws, r3.2⟩

/-- Embedding of `constrain_iov` (websocket.c).  An iovec is represented by
its list of segment lengths; the result is the constrained segment list. -/
def constrain_iov : List Nat → Nat → List Nat
  | _, 0 => []
  | [], _ => []
  | seg :: rest, maxlen =>
    if maxlen < seg then [maxlen]
    else seg :: constrain_iov rest (maxlen - seg)

/-- Embedding of `websocket_writev` (websocket.c), on segment lengths.  The
single `raw_writev` call is served by the same write-plan oracle.  Note that
the short-header branch stores `write_header_len - rc` into
`write_header_pos`, exactly as the source does. -/
def websocket_writev (ws0 : RedsWebSocket) (iov : List Nat) (plan0 : List Int) : WriteResult :=
  if ws0.closed then ⟨-1, some Epipe, ws0, plan0⟩
  else
    let r := send_pending_data ws0 plan0
    if r.ret ≤ 0 then r
    else
      let ws := r.ws
      if 0 < ws.write_remainder then
        let out := constrain_iov iov ws.write_remainder
        let r3 := raw_write r.plan out.sum
        if r3.1 ≤ 0 then ⟨r3.1, none, ws, r3.2⟩
        else ⟨r3.1, none, { ws with write_remainder := ws.write_remainder - r3.1.toNat }, r3.2⟩
      else
        let len := iov.sum
        let hdr := fill_header len
        let ws2 := { ws with write_header := hdr, write_header_pos := 0,
                             write_header_len := hdr.length }
        let r3 := raw_write r.plan (hdr.length + len)
        if r3.1 ≤ 0 then ⟨r3.1, none, { ws2 with write_header_len := 0 }, r3.2⟩
        else if r3.1.toNat < hdr.length then
          ⟨-1, some Eagain, { ws2 with write_header_pos := hdr.length - r3.1.toNat }, r3.2⟩
        else
          ⟨((r3.1.toNat - hdr.length : Nat) : Int), none,
            { ws2 with write_header_pos := hdr.length,
                       write_remainder := len - (r3.1.toNat - hdr.length) }, r3.2⟩

/-- Result of `websocket_read`: C return value, the errno the code leaves
set on error, the new state, the unread rest of the raw input, the remaining
write plan and the bytes delivered into the caller's buffer. -/
structure ReadResult where
  ret : Int
  errnoOut : Option Nat
  ws : RedsWebSocket
  input : List Nat
  plan : List Int
  delivered : List Nat
deriving DecidableEq

/-- The `while (size > 0)` loop of `websocket_read` (websocket.c), with an
explicit fuel bound on the number of iterations (the exhausted-fuel marker -2
is never reached with adequate fuel).  `acc` is the data already placed in the
caller's buffer (`n` in the C code is `acc.length`).  The `read_error` label
is inlined in the two `rc ≤ 0` branches: with the EAGAIN-on-exhaustion read
oracle, `rc = -1` always means errno EINTR/EAGAIN. -/
def websocket_read_loop :
    Nat → RedsWebSocket → Nat → List Nat → List Int → List Nat → ReadResult
  | 0, ws, _, input, plan, acc => ⟨-2, none, ws, input, plan, acc⟩
  | fuel + 1, ws, size, input, plan, acc =>
    if size = 0 then ⟨(acc.length : Int), none, ws, input, plan, acc⟩
    else
      let frame := ws.read_frame
      if frame.frame_ready = false then
        let rr := raw_read input (frame_bytes_needed frame)
        if rr.1 ≤ 0 then
          if 0 < acc.length ∧ rr.1 = -1 then
            ⟨(acc.length : Int), none, ws, rr.2.2, plan, acc⟩
          else if rr.1 = 0 then ⟨0, none, { ws with closed := true }, rr.2.2, plan, acc⟩
          else ⟨rr.1, some Eagain, ws, rr.2.2, plan, acc⟩
        else
          let frame2 := { frame with header := frame.header ++ rr.2.1 }
          match websocket_get_frame_header frame2 with
          | none =>
            ⟨-1, some Eio, { ws with closed := true, read_frame := frame2 }, rr.2.2, plan, acc⟩
          | some frame3 =>
            websocket_read_loop fuel { ws with read_frame := frame3 } size rr.2.2 plan acc
      else if frame.type = CLOSE_FRAME then
        let r := send_pending_data { ws with close_pending := true, read_frame := {} } plan
        ⟨0, none, r.ws, input, r.plan, acc⟩
      else if frame.type = BINARY_FRAME then
        let rr := raw_read input (min size (frame.expected_len - frame.relayed))
        if rr.1 ≤ 0 then
          if 0 < acc.length ∧ rr.1 = -1 then
            ⟨(acc.length : Int), none, ws, rr.2.2, plan, acc⟩
          else if rr.1 = 0 then ⟨0, none, { ws with closed := true }, rr.2.2, plan, acc⟩
          else ⟨rr.1, some Eagain, ws, rr.2.2, plan, acc⟩
        else
          let rel := relay_data rr.2.1 frame
          let frame3 := if rel.2.expected_len ≤ rel.2.relayed then {} else rel.2
          websocket_read_loop fuel { ws with read_frame := frame3 }
            (size - rel.1.length) rr.2.2 plan (acc ++ rel.1)
      else
        websocket_read_loop fuel { ws with read_frame := {} } size input plan acc

/-- Embedding of `websocket_read` (websocket.c).  When the connection is
closed or close is pending, one raw read discards up to 128 pending bytes
and the call returns 0. -/
def websocket_read (ws : RedsWebSocket) (size : Nat) (input : List Nat)
    (plan : List Int) (fuel : Nat) : ReadResult :=
  if ws.closed ∨ ws.close_pending then
    let rr := raw_read input 128
    ⟨0, none, ws, rr.2.2, plan, []⟩
  else websocket_read_loop fuel ws size input plan []

/-! ### Handshake acceptance (websocket_is_start) -/

/-- ASCII lower-casing of a byte, as `strcasestr` compares characters. -/
def lowerByte (c : Nat) : Nat := if 65 ≤ c ∧ c ≤ 90 then c + 32 else c

/-- Case-insensitive equality of two byte lists (false on length mismatch). -/
def ciEqBytes : List Nat → List Nat → Bool
  | [], [] => true
  | a :: as, b :: bs => (lowerByte a == lowerByte b) && ciEqBytes as bs
  | _, _ => false

/-- Does `needle` match case-insensitively at the head of `haystack`? -/
def ciMatchesAt (needle haystack : List Nat) : Bool :=
  ciEqBytes needle (haystack.take needle.length)

/-- Embedding of `find_str` (websocket.c): `strcasestr` followed by skipping
the needle, i.e. the suffix of the haystack just after the first
case-insensitive occurrence of the needle, or `none`. -/
def find_str : List Nat → List Nat → Option (List Nat)
  | [], needle => if needle = [] then some [] else none
  | a :: t, needle =>
    if ciMatchesAt needle (a :: t) then some ((a :: t).drop needle.length)
    else find_str t needle

/-- The whitespace class of `sscanf` (and of `g_strstrip`). -/
def isSpaceByte (c : Nat) : Bool := c = 32 || (9 ≤ c && c ≤ 13)

/-- The bytes of the needle `"\nSec-WebSocket-Key:"`. -/
def keyNeedle : List Nat :=
  [10, 83, 101, 99, 45, 87, 101, 98, 83, 111, 99, 107, 101, 116, 45, 75, 101, 121, 58]

/-- The bytes of the needle `"\nSec-WebSocket-Protocol:"`. -/
def protoNeedle : List Nat :=
  [10, 83, 101, 99, 45, 87, 101, 98, 83, 111, 99, 107, 101, 116, 45,
   80, 114, 111, 116, 111, 99, 111, 108, 58]

/-- The bytes of `"GET "`. -/
def litGET : List Nat := [71, 69, 84, 32]

/-- The bytes of `"binary"`. -/
def litBinary : List Nat := [98, 105, 110, 97, 114, 121]

/-- The bytes of `"\r\n\r\n"`. -/
def litCRLFCRLF : List Nat := [13, 10, 13, 10]

/-- Embedding of the statement `sscanf(protocol, " binary %n", &binary_pos)`
in `websocket_is_start`: a whitespace directive consumes any run of
whitespace (including none), the literal must match exactly, and `%n`
reports the number of input bytes consumed; on a literal mismatch
`binary_pos` keeps its initial value -1. -/
def sscanf_binary_pos (input : List Nat) : Int :=
  let r1 := input.dropWhile isSpaceByte
  if litBinary.isPrefixOf r1 then
    let r2 := r1.drop litBinary.length
    let r3 := r2.dropWhile isSpaceByte
    (((input.length - r1.length) + litBinary.length + (r2.length - r3.length) : Nat) : Int)
  else -1

/-- Embedding of `websocket_is_start` (websocket.c), on the assembled and
NUL-terminated buffer's bytes. -/
def websocket_is_start (buf : List Nat) : Bool :=
  let protocol := find_str buf protoNeedle
  let key := find_str buf keyNeedle
  if buf.take 4 ≠ litGET ∨ protocol = none ∨ key = none ∨
      litCRLFCRLF.isSuffixOf buf = false then false
  else
    match protocol with
    | some rest => 0 < sscanf_binary_pos rest
    | none => false

/-- Abstraction of `websocket_new` (websocket.c) at the level the handshake
claim speaks about: given the assembled HTTP buffer (initial bytes plus the
one extra raw read, NUL-terminated), the handle is produced iff
`websocket_is_start` accepts the buffer and the reply (whose SHA-1/base64
contents are irrelevant to acceptance) is written in full, abstracted by
`replyWriteOk`. -/
def websocket_new_model (assembled : List Nat) (replyWriteOk : Bool) :
    Option RedsWebSocket :=
  if websocket_is_start assembled = false then none
  else if replyWriteOk then some websocket_new_state
  else none

/-- Spec-side notion for C3: the buffer contains a case-insensitive
occurrence of the needle. -/
def ContainsCI (buf needle : List Nat) : Prop :=
  ∃ pre mid post : List Nat, buf = pre ++ mid ++ post ∧ ciEqBytes needle mid = true

/-- Claim-side notion for C3: the value of a header, i.e. the bytes after the
colon up to the end of the line. -/
def headerValue (rest : List Nat) : List Nat := rest.takeWhile (fun c => c ≠ 13)

/-- Claim-side notion for C3: strip whitespace from both ends
(`g_strstrip`). -/
def stripSpaces (l : List Nat) : List Nat :=
  ((l.dropWhile isSpaceByte).reverse.dropWhile isSpaceByte).reverse

/-- The counterexample buffer for C3:
`"GET /\r\nSec-WebSocket-Key: k\r\nSec-WebSocket-Protocol: binaryX\r\n\r\n"`. -/
def bufBinaryX : List Nat :=
  [71, 69, 84, 32, 47, 13, 10, 83, 101, 99, 45, 87, 101, 98, 83, 111, 99, 107,
   101, 116, 45, 75, 101, 121, 58, 32, 107, 13, 10, 83, 101, 99, 45, 87, 101,
   98, 83, 111, 99, 107, 101, 116, 45, 80, 114, 111, 116, 111, 99, 111, 108,
   58, 32, 98, 105, 110, 97, 114, 121, 88, 13, 10, 13, 10]

/-! ### Channel aggregates (red-channel.c) -/

/-- Interface-level view of a `RedChannelClient` as the aggregate loops in
red-channel.c consume it: each field is the result of the corresponding
`red_channel_client_*` query (whose implementation lives outside this
repository slice). -/
structure RedChannelClient where
  blocked : Bool
  no_item_being_sent : Bool
  pipe_size : Nat
  socket : Int
  test_remote_common_cap : Nat → Bool
  test_remote_cap : Nat → Bool

/-- The part of `RedChannelPrivate` the aggregate queries read: the list of
connected channel-clients (`priv->clients`; an empty list is the NULL
`GList`). -/
structure RedChannel where
  clients : List RedChannelClient

/-- Embedding of `red_channel_all_blocked` (red-channel.c): note the explicit
FALSE return when the client list is empty. -/
def red_channel_all_blocked (ch : RedChannel) : Bool :=
  if ch.clients.isEmpty then false else ch.clients.all fun c => c.blocked

/-- Embedding of `red_channel_any_blocked` (red-channel.c). -/
def red_channel_any_blocked (ch : RedChannel) : Bool :=
  ch.clients.any fun c => c.blocked

/-- Embedding of `red_channel_no_item_being_sent` (red-channel.c). -/
def red_channel_no_item_being_sent (ch : RedChannel) : Bool :=
  ch.clients.all fun c => c.no_item_being_sent

/-- Embedding of `red_channel_max_pipe_size` (red-channel.c). -/
def red_channel_max_pipe_size (ch : RedChannel) : Nat :=
  ch.clients.foldl (fun m c => max m c.pipe_size) 0

/-- `~0` as `uint32_t`, the start value of the min fold. -/
def UINT32_MAX_VAL : Nat := 4294967295

/-- Embedding of `red_channel_min_pipe_size` (red-channel.c). -/
def red_channel_min_pipe_size (ch : RedChannel) : Nat :=
  let p := ch.clients.foldl (fun m c => min m c.pipe_size) UINT32_MAX_VAL
  if p = UINT32_MAX_VAL then 0 else p

/-- Embedding of `red_channel_sum_pipes_size` (red-channel.c); the sum is a
`uint32_t`. -/
def red_channel_sum_pipes_size (ch : RedChannel) : Nat :=
  (ch.clients.foldl (fun s c => s + c.pipe_size) 0) % 2 ^ 32

/-- Embedding of `red_channel_get_first_socket` (red-channel.c). -/
def red_channel_get_first_socket (ch : RedChannel) : Int :=
  match ch.clients with
  | [] => -1
  | c :: _ => c.socket

/-- Embedding of `red_channel_is_connected` (red-channel.c). -/
def red_channel_is_connected (ch : RedChannel) : Bool :=
  !ch.clients.isEmpty

/-- Embedding of `red_channel_test_remote_common_cap` (red-channel.c). -/
def red_channel_test_remote_common_cap (ch : RedChannel) (cap : Nat) : Bool :=
  ch.clients.all fun c => c.test_remote_common_cap cap

/-- Embedding of `red_channel_test_remote_cap` (red-channel.c). -/
def red_channel_test_remote_cap (ch : RedChannel) (cap : Nat) : Bool :=
  ch.clients.all fun c => c.test_remote_cap cap

/-- The channel with zero connected channel-clients. -/
def emptyChannel : RedChannel := ⟨[]⟩

/-! ### Channel construction validation (red_channel_constructed) -/

/-- Presence of the subclass callbacks `red_channel_constructed` validates. -/
structure RedChannelClass where
  config_socket : Bool
  on_disconnect : Bool
  alloc_recv_buf : Bool
  release_recv_buf : Bool
  handle_migrate_data : Bool
deriving DecidableEq

/-- The two `spice_assert` validations in `red_channel_constructed`
(red-channel.c).  `needDataTransfer` stands for
`migration_flags & SPICE_MIGRATE_NEED_DATA_TRANSFER` being non-zero (the
flag constant lives in a header outside src/).  Construction succeeds iff
this returns true; a false value makes `spice_assert` abort. -/
def red_channel_constructed_ok (k : RedChannelClass) (needDataTransfer : Bool) : Bool :=
  (k.config_socket && k.on_disconnect && k.alloc_recv_buf && k.release_recv_buf) &&
  (k.handle_migrate_data || !needDataTransfer)

/-! ### Client migration accounting (red-channel.c) -/

/-- The fields of `RedClient` that
`red_client_seamless_migration_done_for_channel` reads and writes (all
accessed under the client mutex in the C code). -/
structure RedClient where
  num_migrated_channels : Int
  during_target_migrate : Bool
  seamless_migrate : Bool
deriving DecidableEq

/-- Embedding of `red_client_seamless_migration_done_for_channel`
(red-channel.c).  Result: the C return value, the new client state, and
the number of `main_dispatcher_seamless_migrate_dst_complete`
notifications issued by the call. -/
def red_client_seamless_migration_done_for_channel (c : RedClient) :
    Bool × RedClient × Nat :=
  let n := c.num_migrated_channels - 1
  if n = 0 then
    (true, { c with num_migrated_channels := n, during_target_migrate := false,
                    seamless_migrate := false }, 1)
  else
    (false, { c with num_migrated_channels := n }, 0)

/-! ### Claim-side predicates for the inbound header validation (C4) -/

/-- A reserved bit is set in the first header byte. -/
def rsvSet (f : websocket_frame_t) : Prop :=
  f.header.getD 0 0 &&& RSV_MASK ≠ 0

/-- The header describes a non-fin control frame. -/
def nonFinControl (f : websocket_frame_t) : Prop :=
  f.header.getD 0 0 &&& FIN_FLAG = 0 ∧
  (f.header.getD 0 0 &&& TYPE_MASK) &&& CONTROL_FRAME_MASK ≠ 0

/-- The opcode set the claim says is rejected: data opcodes 3..7. -/
def claimBadOpcode (f : websocket_frame_t) : Prop :=
  3 ≤ f.header.getD 0 0 &&& TYPE_MASK ∧ f.header.getD 0 0 &&& TYPE_MASK ≤ 7

/-- The opcode set the code rejects: `(opcode & ~0x8) ≥ 3`, i.e. opcodes
3..7 and 0xB..0xF. -/
def amendedBadOpcode (f : websocket_frame_t) : Prop :=
  3 ≤ (f.header.getD 0 0 &&& TYPE_MASK) &&& 0xF7

/-- The header describes a control frame whose extracted length is ≥ 126. -/
def controlOversize (f : websocket_frame_t) : Prop :=
  (f.header.getD 0 0 &&& TYPE_MASK) &&& CONTROL_FRAME_MASK ≠ 0 ∧
  126 ≤ (extract_length (f.header.drop 1)).1

/-- A complete two-byte header with FIN set and the reserved control opcode
0xB: the counterexample frame for C4. -/
def frame8B : websocket_frame_t := { header := [0x8B, 0x00] }

/-! ### Reachable framer states (C7) -/

/-- The WebSocket handle states reachable from the post-handshake state
under the three entry points, with arbitrary request sizes, raw inputs and
raw-callback outcomes. -/
inductive WSReachable : RedsWebSocket → Prop where
  | init : WSReachable websocket_new_state
  | read (ws : RedsWebSocket) (size : Nat) (input : List Nat) (plan : List Int)
      (fuel : Nat) : WSReachable ws →
      WSReachable (websocket_read ws size input plan fuel).ws
  | write (ws : RedsWebSocket) (len : Nat) (plan : List Int) : WSReachable ws →
      WSReachable (websocket_write ws len plan).ws
  | writev (ws : RedsWebSocket) (iov : List Nat) (plan : List Int) : WSReachable ws →
      WSReachable (websocket_writev ws iov plan).ws

/-- The header-before-body invariant of C7. -/
def HeaderBeforeBody (ws : RedsWebSocket) : Prop :=
  0 < ws.write_remainder → ws.write_header_pos = ws.write_header_len

/-- A concrete closed handle (for C5). -/
def closedWS : RedsWebSocket := { closed := true }

end Spice

namespace Spice

/-! ## Theorems -/

/-- Claim C1 (as stated, refuted): on the channel with zero channel-clients
the claim asserts `all_blocked = true`, but `red_channel_all_blocked` returns
FALSE when the client list is empty. -/
theorem red_channel_all_blocked_empty_refutes :
    ¬ red_channel_all_blocked emptyChannel = true := by
  decide

/-- Claim C1 (amended): for every channel with zero connected
channel-clients, the aggregate queries return all_blocked = false (not true:
the code short-circuits to FALSE on an empty client list), any_blocked =
false, no_item_being_sent = true, min_pipe_size = 0, max_pipe_size = 0,
sum_pipes_size = 0, get_first_socket = -1, is_connected = false, and both
remote-capability aggregate tests return true for every capability bit. -/
theorem red_channel_aggregates_empty (ch : RedChannel) (h : ch.clients = [])
    (cap : Nat) :
    red_channel_all_blocked ch = false ∧
    red_channel_any_blocked ch = false ∧
    red_channel_no_item_being_sent ch = true ∧
    red_channel_min_pipe_size ch = 0 ∧
    red_channel_max_pipe_size ch = 0 ∧
    red_channel_sum_pipes_size ch = 0 ∧
    red_channel_get_first_socket ch = -1 ∧
    red_channel_is_connected ch = false ∧
    red_channel_test_remote_common_cap ch cap = true ∧
    red_channel_test_remote_cap ch cap = true := by
  obtain ⟨cs⟩ := ch
  cases h
  simp [red_channel_all_blocked, red_channel_any_blocked,
    red_channel_no_item_being_sent, red_channel_min_pipe_size,
    red_channel_max_pipe_size, red_channel_sum_pipes_size,
    red_channel_get_first_socket, red_channel_is_connected,
    red_channel_test_remote_common_cap, red_channel_test_remote_cap]

/-- Witness for C1: the amended aggregate values on the concrete empty
channel, capability bit 0. -/
theorem red_channel_aggregates_empty_witness :
    red_channel_all_blocked emptyChannel = false ∧
    red_channel_any_blocked emptyChannel = false ∧
    red_channel_no_item_being_sent emptyChannel = true ∧
    red_channel_min_pipe_size emptyChannel = 0 ∧
    red_channel_max_pipe_size emptyChannel = 0 ∧
    red_channel_sum_pipes_size emptyChannel = 0 ∧
    red_channel_get_first_socket emptyChannel = -1 ∧
    red_channel_is_connected emptyChannel = false ∧
    red_channel_test_remote_common_cap emptyChannel 0 = true ∧
    red_channel_test_remote_cap emptyChannel 0 = true :=
  red_channel_aggregates_empty emptyChannel rfl 0

/-- Claim C8 (as stated, refuted): a subclass that provides all four
required callbacks and also `handle_migrate_data` while the migration
flags do not request data transfer passes both validation assertions, so
construction succeeds even though the claim's "if and only if" requires it
to abort. -/
theorem red_channel_constructed_extra_handler_ok :
    red_channel_constructed_ok ⟨true, true, true, true, true⟩ false = true ∧
    (⟨true, true, true, true, true⟩ : RedChannelClass).handle_migrate_data ≠ false := by
  decide

/-- Claim C8 (amended): channel construction succeeds iff the subclass
provides `config_socket`, `on_disconnect`, `alloc_recv_buf` and
`release_recv_buf`, and provides `handle_migrate_data` whenever the
channel's migration flags request data transfer (an implication, not an
"if and only if": an extra `handle_migrate_data` without the flag is
accepted); any violation makes the validation assertions abort. -/
theorem red_channel_constructed_validation (k : RedChannelClass) (nd : Bool) :
    red_channel_constructed_ok k nd = true ↔
      (k.config_socket = true ∧ k.on_disconnect = true ∧ k.alloc_recv_buf = true ∧
       k.release_recv_buf = true ∧ (nd = true → k.handle_migrate_data = true)) := by
  obtain ⟨a, b, c, d, e⟩ := k
  cases a <;> cases b <;> cases c <;> cases d <;> cases e <;> cases nd <;> decide

/-- Claim C9: each call to `seamless_migration_done_for_channel` decrements
`num_migrated_channels` and returns true iff the counter reaches zero at
that call; exactly in that case it clears `during_target_migrate` and
`seamless_migrate` and notifies the supervisor via the main-dispatcher
exactly once, and otherwise it returns false leaving both flags unchanged
and sending no notification. -/
theorem red_client_seamless_migration_done_spec (c : RedClient) :
    ((red_client_seamless_migration_done_for_channel c).2.1.num_migrated_channels
        = c.num_migrated_channels - 1) ∧
    ((red_client_seamless_migration_done_for_channel c).1 = true ↔
        c.num_migrated_channels - 1 = 0) ∧
    ((red_client_seamless_migration_done_for_channel c).1 = true →
        (red_client_seamless_migration_done_for_channel c).2.1.during_target_migrate = false ∧
        (red_client_seamless_migration_done_for_channel c).2.1.seamless_migrate = false ∧
        (red_client_seamless_migration_done_for_channel c).2.2 = 1) ∧
    ((red_client_seamless_migration_done_for_channel c).1 = false →
        (red_client_seamless_migration_done_for_channel c).2.1.during_target_migrate
            = c.during_target_migrate ∧
        (red_client_seamless_migration_done_for_channel c).2.1.seamless_migrate
            = c.seamless_migrate ∧
        (red_client_seamless_migration_done_for_channel c).2.2 = 0) := by
  unfold red_client_seamless_migration_done_for_channel
  by_cases h : c.num_migrated_channels - 1 = 0 <;> simp [h]

/-- Claim C5: on a closed WebSocket handle every read returns 0 delivering
no payload bytes and leaving the state unchanged (only pending inbound
bytes are discarded from the raw stream), and every write or writev fails
with -1 / EPIPE without touching the state or the raw stream. -/
theorem websocket_closed_io (ws : RedsWebSocket) (h : ws.closed = true)
    (size : Nat) (input : List Nat) (plan : List Int) (fuel len : Nat)
    (iov : List Nat) :
    (websocket_read ws size input plan fuel).ret = 0 ∧
    (websocket_read ws size input plan fuel).ws = ws ∧
    (websocket_read ws size input plan fuel).delivered = [] ∧
    (websocket_write ws len plan).ret = -1 ∧
    (websocket_write ws len plan).errnoOut = some Epipe ∧
    (websocket_write ws len plan).ws = ws ∧
    (websocket_write ws len plan).plan = plan ∧
    (websocket_writev ws iov plan).ret = -1 ∧
    (websocket_writev ws iov plan).errnoOut = some Epipe ∧
    (websocket_writev ws iov plan).ws = ws ∧
    (websocket_writev ws iov plan).plan = plan := by
  simp [websocket_read, websocket_write, websocket_writev, h]

/-- Witness for C5 at a concrete closed handle and concrete arguments. -/
theorem websocket_closed_io_witness :
    (websocket_read closedWS 3 [1, 2] [7] 5).ret = 0 ∧
    (websocket_read closedWS 3 [1, 2] [7] 5).ws = closedWS ∧
    (websocket_read closedWS 3 [1, 2] [7] 5).delivered = [] ∧
    (websocket_write closedWS 4 [7]).ret = -1 ∧
    (websocket_write closedWS 4 [7]).errnoOut = some Epipe ∧
    (websocket_write closedWS 4 [7]).ws = closedWS ∧
    (websocket_write closedWS 4 [7]).plan = [7] ∧
    (websocket_writev closedWS [2, 2] [7]).ret = -1 ∧
    (websocket_writev closedWS [2, 2] [7]).errnoOut = some Epipe ∧
    (websocket_writev closedWS [2, 2] [7]).ws = closedWS ∧
    (websocket_writev closedWS [2, 2] [7]).plan = [7] :=
  websocket_closed_io closedWS rfl 3 [1, 2] [7] 5 4 [2, 2]

/-- Claim C10: on the unmasked inbound binary frame 82 05 48 65 6c 6c 6f the
framer does deliver the payload bytes unchanged (no XOR) and does accept the
frame, but `relay_data` advances `relayed` only in its masked branch, so
after delivering all 5 expected bytes the frame is still marked ready with
`relayed = 0` instead of being cleared — the frame-clearing does NOT behave
as for masked frames (compare the masked trace of C6, which ends with a
cleared frame). -/
theorem websocket_unmasked_frame_not_cleared :
    (websocket_read websocket_new_state 100
        [0x82, 0x05, 72, 101, 108, 108, 111] [] 10).ret = 5 ∧
    (websocket_read websocket_new_state 100
        [0x82, 0x05, 72, 101, 108, 108, 111] [] 10).delivered =
      [72, 101, 108, 108, 111] ∧
    (websocket_read websocket_new_state 100
        [0x82, 0x05, 72, 101, 108, 108, 111] [] 10).ws.read_frame.frame_ready = true ∧
    (websocket_read websocket_new_state 100
        [0x82, 0x05, 72, 101, 108, 108, 111] [] 10).ws.read_frame.relayed = 0 ∧
    (websocket_read websocket_new_state 100
        [0x82, 0x05, 72, 101, 108, 108, 111] [] 10).ws.read_frame.expected_len = 5 ∧
    (relay_data [72, 101, 108, 108, 111]
        { masked := false, expected_len := 5 }).2.relayed = 0 := by
  decide

/-- Helper: `getD` is unchanged by a `take` that keeps the index. -/
theorem getD_take_lt :
    ∀ (l : List Nat) (n i : Nat), i < n → (l.take n).getD i 0 = l.getD i 0
  | [], _, _, _ => by simp
  | _ :: _, 0, _, h => by omega
  | a :: t, n + 1, 0, _ => by simp
  | a :: t, n + 1, i + 1, h => by
    simp only [List.take_succ_cons, List.getD_cons_succ]
    exact getD_take_lt t n i (by omega)

/-- Helper: the XOR loop preserves the byte count. -/
theorem mask_bytes_length (mask : List Nat) :
    ∀ (rel : Nat) (l : List Nat), (mask_bytes mask rel l).length = l.length
  | _, [] => rfl
  | rel, _ :: t => by
    simp [mask_bytes, mask_bytes_length mask (rel + 1) t]

/-- Helper: byte `i` of the XOR loop output is the input byte XORed with
mask byte `(rel + i) % 4`. -/
theorem mask_bytes_getD (mask : List Nat) :
    ∀ (l : List Nat) (rel i : Nat), i < l.length →
      (mask_bytes mask rel l).getD i 0 = l.getD i 0 ^^^ mask.getD ((rel + i) % 4) 0
  | [], _, _, h => by simp at h
  | b :: t, rel, 0, _ => by simp [mask_bytes]
  | b :: t, rel, i + 1, h => by
    simp only [mask_bytes, List.getD_cons_succ]
    rw [mask_bytes_getD mask t (rel + 1) i (by simpa using h)]
    have harith : rel + 1 + i = rel + (i + 1) := by omega
    rw [harith]

/-- Claim C6: for every masked inbound binary frame, each byte `relay_data`
delivers equals the raw payload byte XORed with mask byte
`(relayed_base + i) % 4`; and concretely the masked frame
82 85 37 fa 21 3d 7f 9f 4d 51 58 read through `websocket_read` delivers
exactly the bytes of "Hello", after which the frame state is cleared and
the connection is still open. -/
theorem websocket_masked_read_decode :
    (∀ (buf : List Nat) (f : websocket_frame_t), f.masked = true →
      ∀ i : Nat, i < (relay_data buf f).1.length →
        (relay_data buf f).1.getD i 0 =
          buf.getD i 0 ^^^ f.mask.getD ((f.relayed + i) % 4) 0) ∧
    ((websocket_read websocket_new_state 100
        [0x82, 0x85, 0x37, 0xfa, 0x21, 0x3d, 0x7f, 0x9f, 0x4d, 0x51, 0x58] [] 10).ret = 5 ∧
     (websocket_read websocket_new_state 100
        [0x82, 0x85, 0x37, 0xfa, 0x21, 0x3d, 0x7f, 0x9f, 0x4d, 0x51, 0x58] [] 10).delivered =
       [72, 101, 108, 108, 111] ∧
     (websocket_read websocket_new_state 100
        [0x82, 0x85, 0x37, 0xfa, 0x21, 0x3d, 0x7f, 0x9f, 0x4d, 0x51, 0x58] [] 10).ws.read_frame
       = {} ∧
     (websocket_read websocket_new_state 100
        [0x82, 0x85, 0x37, 0xfa, 0x21, 0x3d, 0x7f, 0x9f, 0x4d, 0x51, 0x58] [] 10).ws.closed
       = false) := by
  constructor
  · intro buf f hm i hi
    simp only [relay_data, hm, if_true] at hi ⊢
    have hlen : i < (buf.take (min buf.length (f.expected_len - f.relayed))).length := by
      simpa [mask_bytes_length] using hi
    rw [mask_bytes_getD f.mask _ f.relayed i hlen,
        getD_take_lt buf _ i (by simp at hlen; omega)]
  · exact ⟨by decide, by decide, by decide, by decide⟩

/-- A concrete masked frame (mask 37 fa 21 3d, 5 expected bytes) for the C6
witness. -/
def frameHello : websocket_frame_t :=
  { masked := true, mask := [0x37, 0xfa, 0x21, 0x3d], expected_len := 5 }

/-- Witness for C6: the general unmasking law applied to the payload of the
concrete frame at index 0. -/
theorem websocket_masked_read_decode_witness :
    (relay_data [0x7f, 0x9f, 0x4d, 0x51, 0x58] frameHello).1.getD 0 0 =
      ([0x7f, 0x9f, 0x4d, 0x51, 0x58] : List Nat).getD 0 0 ^^^
        frameHello.mask.getD ((frameHello.relayed + 0) % 4) 0 :=
  websocket_masked_read_decode.1 [0x7f, 0x9f, 0x4d, 0x51, 0x58] frameHello rfl 0 (by decide)

/-- Helper: opcode promotion (non-fin continuation becomes binary) does not
change the control bit of the opcode. -/
theorem promoted_control_bit (fin ty : Nat) :
    (if fin = 0 ∧ ty = CONTINUATION_FRAME then BINARY_FRAME else ty) &&& CONTROL_FRAME_MASK
      = ty &&& CONTROL_FRAME_MASK := by
  split
  · rename_i h
    rw [h.2]
    decide
  · rfl

/-- Claim C4 (amended): for a complete inbound frame header, parsing fails
(and only fails) when a reserved bit is set, or the frame is a non-fin
control frame, or the opcode satisfies `(opcode & ~0x8) ≥ 3` — i.e. opcode
in {3..7} or in {0xB..0xF}, not only the data opcodes {3..7} the claim
lists — or the frame is a control frame whose extracted length is ≥ 126;
when parsing succeeds the frame is marked ready (the parse step itself
never closes the connection).  Whenever the bytes arriving at a handle
complete a header on which parsing fails, `websocket_read` marks the
connection closed and returns -1 with errno EIO. -/
theorem websocket_frame_header_validation :
    (∀ f : websocket_frame_t, frame_bytes_needed f = 0 →
      ((websocket_get_frame_header f = none) ↔
        (rsvSet f ∨ nonFinControl f ∨ amendedBadOpcode f ∨ controlOversize f)) ∧
      (∀ f', websocket_get_frame_header f = some f' → f'.frame_ready = true)) ∧
    (∀ (ws : RedsWebSocket) (size : Nat) (input : List Nat) (plan : List Int) (fuel : Nat),
      ws.closed = false → ws.close_pending = false →
      ws.read_frame.frame_ready = false → 0 < size → 0 < fuel →
      0 < frame_bytes_needed ws.read_frame → input ≠ [] →
      websocket_get_frame_header
        { ws.read_frame with
          header := ws.read_frame.header ++ input.take (frame_bytes_needed ws.read_frame) }
        = none →
      (websocket_read ws size input plan fuel).ret = -1 ∧
      (websocket_read ws size input plan fuel).errnoOut = some Eio ∧
      (websocket_read ws size input plan fuel).ws.closed = true) := by
  constructor
  · intro f h0
    constructor
    · unfold websocket_get_frame_header
      rw [if_neg (by omega)]
      simp only [rsvSet, nonFinControl, amendedBadOpcode, controlOversize,
        LENGTH_16BIT, ge_iff_le]
      rw [promoted_control_bit]
      split_ifs with hA hB hC hD
      · exact ⟨fun _ => Or.inl hA, fun _ => rfl⟩
      · exact ⟨fun _ => Or.inr (Or.inl hB), fun _ => rfl⟩
      · exact ⟨fun _ => Or.inr (Or.inr (Or.inl hC)), fun _ => rfl⟩
      · exact ⟨fun _ => Or.inr (Or.inr (Or.inr hD)), fun _ => rfl⟩
      · constructor
        · intro h
          simp at h
        · rintro (h | h | h | h)
          · exact absurd h hA
          · exact absurd h hB
          · exact absurd h hC
          · exact absurd h hD
    · intro f' hsome
      unfold websocket_get_frame_header at hsome
      rw [if_neg (by omega)] at hsome
      simp only [LENGTH_16BIT] at hsome
      -- walk the remaining conditionals: every surviving branch sets frame_ready
      repeat' split at hsome
      all_goals cases hsome
      all_goals rfl
  · intro ws size input plan fuel hcl hcp hfr hsz hfu hneed hin hparse
    obtain ⟨m, rfl⟩ : ∃ m, fuel = m + 1 := ⟨fuel - 1, by omega⟩
    have hsz' : ¬ size = 0 := by omega
    have hneed' : ¬ frame_bytes_needed ws.read_frame = 0 := by omega
    have hpos : ¬ (((min (frame_bytes_needed ws.read_frame) input.length : Nat) : Int) ≤ 0) := by
      have hlen : 0 < input.length := List.length_pos.mpr hin
      push_cast
      omega
    simp only [hfr] at hparse
    simp [websocket_read, websocket_read_loop, raw_read, hcl, hcp, hfr, hsz',
      hneed', hin, hpos, hparse]

/-- Claim C4 (as stated, refuted): the complete header 8B 00 (FIN set,
opcode 0xB, no mask, length 0) violates none of the four conditions the
claim lists — no reserved bit, FIN is set, the opcode is not in {3..7},
and the control length is 0 — yet `websocket_get_frame_header` rejects it,
because the code also rejects the reserved control opcodes 0xB..0xF. -/
theorem websocket_frame_header_opcode_eleven :
    frame_bytes_needed frame8B = 0 ∧
    websocket_get_frame_header frame8B = none ∧
    ¬ rsvSet frame8B ∧ ¬ nonFinControl frame8B ∧ ¬ claimBadOpcode frame8B ∧
    ¬ controlOversize frame8B := by
  refine ⟨by decide, by decide, ?_, ?_, ?_, ?_⟩
  · unfold rsvSet
    decide
  · unfold nonFinControl
    decide
  · unfold claimBadOpcode
    decide
  · unfold controlOversize
    decide

/-- Witness for C4: the validation applied to the concrete rejected header
8B 00, both at the parser level and through `websocket_read`. -/
theorem websocket_frame_header_validation_witness :
    websocket_get_frame_header frame8B = none ∧
    (websocket_read websocket_new_state 1 [0x8B, 0x00] [] 2).ret = -1 ∧
    (websocket_read websocket_new_state 1 [0x8B, 0x00] [] 2).errnoOut = some Eio ∧
    (websocket_read websocket_new_state 1 [0x8B, 0x00] [] 2).ws.closed = true := by
  have h1 := (websocket_frame_header_validation.1 frame8B (by decide)).1
  have h2 := websocket_frame_header_validation.2 websocket_new_state 1 [0x8B, 0x00] [] 2
    rfl rfl rfl (by omega) (by omega) (by decide) (by decide) (by decide)
  refine ⟨h1.mpr (Or.inr (Or.inr (Or.inl ?_))), h2.1, h2.2.1, h2.2.2⟩
  unfold amendedBadOpcode
  decide

/-- Helper: the raw write oracle never reports more bytes than requested. -/
theorem raw_write_le (plan : List Int) (req : Nat) : (raw_write plan req).1 ≤ (req : Int) := by
  cases plan with
  | nil => simp [raw_write]
  | cons p rest =>
    simp only [raw_write]
    split <;> omega

/-- Helper: flushing a pending header preserves the header-before-body
invariant, provided no body bytes are owed yet (true at both call sites). -/
theorem send_data_header_left_hbb (ws : RedsWebSocket) (plan : List Int)
    (h : ws.write_remainder = 0) :
    HeaderBeforeBody (send_data_header_left ws plan).ws := by
  have hle := raw_write_le plan (ws.write_header_len - ws.write_header_pos)
  unfold HeaderBeforeBody
  simp only [send_data_header_left]
  split
  · intro hrem
    dsimp only at hrem
    omega
  · rename_i hrc
    split
    · rename_i hge
      intro _
      dsimp only at hge ⊢
      omega
    · intro hrem
      dsimp only at hrem
      omega

/-- Helper: the close acknowledgement does not touch the outbound header
fields. -/
theorem websocket_ack_close_hbb (ws : RedsWebSocket) (plan : List Int)
    (h : HeaderBeforeBody ws) : HeaderBeforeBody (websocket_ack_close ws plan).ws := by
  simp only [websocket_ack_close]
  split <;> exact h

/-- Helper: `send_pending_data` preserves the header-before-body invariant. -/
theorem send_pending_data_hbb (ws : RedsWebSocket) (plan : List Int)
    (h : HeaderBeforeBody ws) : HeaderBeforeBody (send_pending_data ws plan).ws := by
  simp only [send_pending_data]
  split
  · exact h
  · rename_i hrem0
    split
    · have hs := send_data_header_left_hbb ws plan (by omega)
      split <;> exact hs
    · split
      · have ha := websocket_ack_close_hbb ws plan h
        split <;> exact ha
      · exact h

/-- Helper: `websocket_write` preserves the header-before-body invariant. -/
theorem websocket_write_hbb (ws : RedsWebSocket) (len : Nat) (plan : List Int)
    (h : HeaderBeforeBody ws) : HeaderBeforeBody (websocket_write ws len plan).ws := by
  simp only [websocket_write]
  split
  · exact h
  · have hspd := send_pending_data_hbb ws plan h
    split
    · exact hspd
    · split
      · rename_i hrem0
        have hsdh : HeaderBeforeBody
            (send_data_header (send_pending_data ws plan).ws len
              (send_pending_data ws plan).plan).ws := by
          unfold send_data_header
          exact send_data_header_left_hbb _ _ hrem0
        split
        · exact hsdh
        · split
          · intro hrem
            dsimp only at hrem ⊢
            exact hsdh (by omega)
          · exact hsdh
      · split
        · intro hrem
          dsimp only at hrem ⊢
          exact hspd (by omega)
        · exact hspd

/-- Helper: `websocket_writev` preserves the header-before-body invariant. -/
theorem websocket_writev_hbb (ws : RedsWebSocket) (iov : List Nat) (plan : List Int)
    (h : HeaderBeforeBody ws) : HeaderBeforeBody (websocket_writev ws iov plan).ws := by
  simp only [websocket_writev]
  split
  · exact h
  · have hspd := send_pending_data_hbb ws plan h
    split
    · exact hspd
    · split
      · split
        · exact hspd
        · intro hrem
          dsimp only at hrem ⊢
          exact hspd (by omega)
      · rename_i hrem0
        split
        · intro hrem
          dsimp only at hrem hrem0
          omega
        · split
          · intro hrem
            dsimp only at hrem hrem0
            omega
          · intro _
            rfl

/-- Helper: the read loop preserves the header-before-body invariant. -/
theorem websocket_read_loop_hbb :
    ∀ (fuel : Nat) (ws : RedsWebSocket) (size : Nat) (input : List Nat)
      (plan : List Int) (acc : List Nat), HeaderBeforeBody ws →
      HeaderBeforeBody (websocket_read_loop fuel ws size input plan acc).ws
  | 0, _, _, _, _, _, h => h
  | fuel + 1, ws, size, input, plan, acc, h => by
    simp only [websocket_read_loop]
    split
    · exact h
    · split
      · split
        · split
          · exact h
          · split
            · exact h
            · exact h
        · split
          · exact h
          · exact websocket_read_loop_hbb fuel _ size _ plan acc h
      · split
        · exact send_pending_data_hbb { ws with close_pending := true, read_frame := {} } plan h
        · split
          · split
            · split
              · exact h
              · split
                · exact h
                · exact h
            · exact websocket_read_loop_hbb fuel _ _ _ plan _ h
          · exact websocket_read_loop_hbb fuel _ size input plan acc h

/-- Helper: `websocket_read` preserves the header-before-body invariant. -/
theorem websocket_read_hbb (ws : RedsWebSocket) (size : Nat) (input : List Nat)
    (plan : List Int) (fuel : Nat) (h : HeaderBeforeBody ws) :
    HeaderBeforeBody (websocket_read ws size input plan fuel).ws := by
  unfold websocket_read
  split
  · exact h
  · exact websocket_read_loop_hbb fuel ws size input plan [] h

/-- Claim C7: on every handle state reachable from the post-handshake state
under `websocket_read`, `websocket_write` and `websocket_writev` with
arbitrary raw-callback outcomes, a positive `write_remainder` implies the
current data-frame header has been sent in full
(`write_header_pos = write_header_len`). -/
theorem websocket_write_header_invariant (ws : RedsWebSocket) (h : WSReachable ws) :
    0 < ws.write_remainder → ws.write_header_pos = ws.write_header_len := by
  induction h with
  | init => intro hrem; exact absurd hrem (by decide)
  | read ws size input plan fuel _ ih => exact websocket_read_hbb ws size input plan fuel ih
  | write ws len plan _ ih => exact websocket_write_hbb ws len plan ih
  | writev ws iov plan _ ih => exact websocket_writev_hbb ws iov plan ih

/-- Witness for C7: a reachable state with a positive remainder — after the
raw stream accepted the 2-byte header and then only 3 of 5 payload bytes —
where the invariant's conclusion indeed holds. -/
theorem websocket_write_header_invariant_witness :
    0 < ((websocket_write websocket_new_state 5 [2, 3]).ws).write_remainder ∧
    ((websocket_write websocket_new_state 5 [2, 3]).ws).write_header_pos =
      ((websocket_write websocket_new_state 5 [2, 3]).ws).write_header_len :=
  ⟨by decide,
   websocket_write_header_invariant _
     (WSReachable.write websocket_new_state 5 [2, 3] WSReachable.init) (by decide)⟩

/-- Helper: case-insensitively equal byte lists have equal length. -/
theorem ciEqBytes_length : ∀ {a b : List Nat}, ciEqBytes a b = true → a.length = b.length
  | [], [], _ => rfl
  | [], _ :: _, h => by simp [ciEqBytes] at h
  | _ :: _, [], h => by simp [ciEqBytes] at h
  | _ :: as, _ :: bs, h => by
    simp only [ciEqBytes, Bool.and_eq_true] at h
    simp [ciEqBytes_length h.2]

/-- Helper: a head match of the needle splits the haystack. -/
theorem ciMatchesAt_decomp {needle h : List Nat} (hm : ciMatchesAt needle h = true) :
    ∃ mid post, h = mid ++ post ∧ ciEqBytes needle mid = true :=
  ⟨h.take needle.length, h.drop needle.length, (List.take_append_drop _ _).symm, hm⟩

/-- Helper: a split whose head part matches the needle case-insensitively is
a head match. -/
theorem ciMatchesAt_of_decomp {needle mid post : List Nat}
    (hci : ciEqBytes needle mid = true) : ciMatchesAt needle (mid ++ post) = true := by
  unfold ciMatchesAt
  rw [ciEqBytes_length hci, List.take_left]
  exact hci

/-- Helper: `find_str` succeeds exactly on haystacks containing a
case-insensitive occurrence of the needle. -/
theorem find_str_isSome_iff (needle : List Nat) :
    ∀ haystack : List Nat,
      (∃ r, find_str haystack needle = some r) ↔ ContainsCI haystack needle
  | [] => by
    constructor
    · rintro ⟨r, hr⟩
      unfold find_str at hr
      split at hr
      · rename_i hne
        exact ⟨[], [], [], by simp, by simp [hne, ciEqBytes]⟩
      · cases hr
    · rintro ⟨pre, mid, post, heq, hci⟩
      have hmid : mid = [] := by
        cases mid with
        | nil => rfl
        | cons c cs =>
          have hl := congrArg List.length heq
          simp only [List.length_nil, List.length_append, List.length_cons] at hl
          omega
      have hne : needle = [] := by
        rw [hmid] at hci
        cases needle with
        | nil => rfl
        | cons c cs => simp [ciEqBytes] at hci
      exact ⟨[], by simp [find_str, hne]⟩
  | a :: t => by
    constructor
    · rintro ⟨r, hr⟩
      unfold find_str at hr
      split at hr
      · rename_i hm
        obtain ⟨mid, post, heq, hci⟩ := ciMatchesAt_decomp hm
        exact ⟨[], mid, post, by simpa using heq, hci⟩
      · obtain ⟨pre, mid, post, heq, hci⟩ := (find_str_isSome_iff needle t).1 ⟨r, hr⟩
        exact ⟨a :: pre, mid, post, by simp [heq], hci⟩
    · rintro ⟨pre, mid, post, heq, hci⟩
      unfold find_str
      split
      · exact ⟨_, rfl⟩
      · rename_i hm
        cases pre with
        | nil =>
          simp only [List.nil_append] at heq
          exact absurd (by rw [heq]; exact ciMatchesAt_of_decomp hci) hm
        | cons b pre' =>
          have hpair : a = b ∧ t = pre' ++ (mid ++ post) := by simpa using heq
          exact (find_str_isSome_iff needle t).2 ⟨pre', mid, post, by simp [hpair.2], hci⟩

/-- Helper: the sscanf result is positive exactly when, after skipping
whitespace, the input begins with the literal "binary". -/
theorem sscanf_binary_pos_pos (rest : List Nat) :
    (0 < sscanf_binary_pos rest) ↔
      litBinary.isPrefixOf (rest.dropWhile isSpaceByte) = true := by
  simp only [sscanf_binary_pos]
  split
  · rename_i hpre
    rw [iff_true_intro hpre, iff_true]
    have h6 : litBinary.length = 6 := rfl
    rw [h6]
    push_cast
    omega
  · rename_i hpre
    constructor
    · intro h
      omega
    · intro h
      exact absurd h hpre

/-- Claim C3 (amended): `websocket_is_start` accepts a buffer iff the buffer
begins with "GET ", contains (case-insensitively, preceded by a newline)
the Sec-WebSocket-Key header and the Sec-WebSocket-Protocol header, ends
with CRLFCRLF, and the bytes following the protocol header — skipping any
whitespace, line breaks included — merely BEGIN with "binary": the value is
not required to be exactly "binary" after stripping surrounding spaces, so
values such as "binaryX" or "binary, chat" are accepted too (the C code
checks the value with `sscanf(protocol, " binary %n", ...)`, which does not
anchor the end of the value). -/
theorem websocket_is_start_characterization (buf : List Nat) :
    websocket_is_start buf = true ↔
      (buf.take 4 = litGET ∧
       ContainsCI buf keyNeedle ∧
       (∃ pre, buf = pre ++ litCRLFCRLF) ∧
       (∃ rest, find_str buf protoNeedle = some rest ∧
          litBinary.isPrefixOf (rest.dropWhile isSpaceByte) = true)) := by
  have hsuffix : litCRLFCRLF.isSuffixOf buf = true ↔ ∃ pre, buf = pre ++ litCRLFCRLF := by
    rw [List.isSuffixOf_iff_suffix]
    constructor
    · rintro ⟨t, rfl⟩
      exact ⟨t, rfl⟩
    · rintro ⟨t, rfl⟩
      exact ⟨t, rfl⟩
  simp only [websocket_is_start]
  by_cases h1 : buf.take 4 = litGET
  · by_cases h2 : find_str buf keyNeedle = none
    · rw [if_pos (by tauto)]
      refine iff_of_false (by simp) ?_
      rintro ⟨-, hk, -, -⟩
      obtain ⟨r, hr⟩ := (find_str_isSome_iff keyNeedle buf).2 hk
      rw [h2] at hr
      cases hr
    · by_cases h3 : find_str buf protoNeedle = none
      · rw [if_pos (by tauto)]
        refine iff_of_false (by simp) ?_
        rintro ⟨-, -, -, r, hr, -⟩
        rw [h3] at hr
        cases hr
      · by_cases h4 : litCRLFCRLF.isSuffixOf buf = true
        · rw [if_neg (by simp [h1, h2, h3, h4])]
          obtain ⟨r, hr⟩ := Option.ne_none_iff_exists'.mp h3
          rw [hr]
          dsimp only
          rw [decide_eq_true_eq, sscanf_binary_pos_pos]
          constructor
          · intro hp
            exact ⟨h1,
              (find_str_isSome_iff keyNeedle buf).1 (Option.ne_none_iff_exists'.mp h2),
              hsuffix.mp h4, r, rfl, hp⟩
          · rintro ⟨-, -, -, r', hr', hp⟩
            cases hr'
            exact hp
        · rw [if_pos (Or.inr (Or.inr (Or.inr (eq_false_of_ne_true h4))))]
          refine iff_of_false (by simp) ?_
          rintro ⟨-, -, hpre, -⟩
          exact h4 (hsuffix.mpr hpre)
  · rw [if_pos (Or.inl h1)]
    refine iff_of_false (by simp) ?_
    rintro ⟨h1', -⟩
    exact h1 h1'

/-- Claim C3 (as stated, refuted): the buffer
"GET /\r\nSec-WebSocket-Key: k\r\nSec-WebSocket-Protocol: binaryX\r\n\r\n"
is accepted by `websocket_is_start` (so `websocket_new` proceeds to produce
a handle on it) although the protocol header's value, after stripping
surrounding spaces, is "binaryX", not exactly "binary". -/
theorem websocket_is_start_accepts_binaryX :
    websocket_is_start bufBinaryX = true ∧
    websocket_new_model bufBinaryX true = some websocket_new_state ∧
    find_str bufBinaryX protoNeedle =
      some [32, 98, 105, 110, 97, 114, 121, 88, 13, 10, 13, 10] ∧
    stripSpaces (headerValue [32, 98, 105, 110, 97, 114, 121, 88, 13, 10, 13, 10])
      ≠ litBinary := by
  refine ⟨by decide, by decide, by decide, ?_⟩
  unfold stripSpaces headerValue
  decide

/-- Claim C2: for every length L in {0, 1, 125, 126, 65535, 65536, 2^32, 2^40},
filling an outbound header with `fill_header` and parsing the length back with
`extract_length` yields L, and the header size matches RFC 6455 (2 bytes for
L < 126, 4 bytes for 126 ≤ L ≤ 65535, 10 bytes otherwise).  The header sizes
all match, and the round trip holds up to 65536, but it fails for 2^32 and
2^40: `extract_length` promotes each length byte only to a 32-bit int before
shifting it into place, so the four most significant bytes of the extended
length are lost (`fill_header` writes them, its own parser cannot read them
back); under the modelled shift semantics the parsed lengths are 1 and 256. -/
theorem fill_extract_roundtrip_results :
    ws_header_roundtrip 0 = 0 ∧ ws_header_roundtrip 1 = 1 ∧
    ws_header_roundtrip 125 = 125 ∧ ws_header_roundtrip 126 = 126 ∧
    ws_header_roundtrip 65535 = 65535 ∧ ws_header_roundtrip 65536 = 65536 ∧
    (fill_header 0).length = 2 ∧ (fill_header 1).length = 2 ∧
    (fill_header 125).length = 2 ∧ (fill_header 126).length = 4 ∧
    (fill_header 65535).length = 4 ∧ (fill_header 65536).length = 10 ∧
    (fill_header (2 ^ 32)).length = 10 ∧ (fill_header (2 ^ 40)).length = 10 ∧
    ws_header_roundtrip (2 ^ 32) = 1 ∧ ws_header_roundtrip (2 ^ 40) = 256 := by
  decide

end Spice
